import Mathlib

/-!
Shallow embedding of the SCD30 Raspberry-Pi driver (scd30_lib.cpp) and the
relevant command-line handling of the main program (scd30.cpp).

The transport (twowire library) is an external collaborator: it is modelled
as an oracle, a list of `BusEvent`s consumed one per low-level i2c write or
read.  Every low-level operation is also recorded in a trace (newest entry
first) so that statements about which commands were issued, in which order,
and how many bus operations a call performed can be expressed.

The three cached measurement quantities are held as their raw 32-bit wire
patterns (`Nat`).  In the C++ source these patterns are reinterpreted as
IEEE-754 floats by `memcpy`; the claims settled here concern update
atomicity, caching and command sequencing, which are independent of that
bit-reinterpretation, so the raw pattern is the faithful carrier.
-/

/-- Result codes of the twowire transport (`Wstatus` in the source). -/
inductive Wstatus where
  | I2C_OK
  | I2C_SDA_NACK
  | I2C_SCL_CLKSTR
  | I2C_SDA_DATA
  | I2C_UNKNOWN
deriving DecidableEq, Repr

/-- One transport outcome: the status the bus returns for the next low-level
operation and, for reads, the bytes the device puts on the wire. -/
structure BusEvent where
  status : Wstatus
  bytes : List Nat := []
deriving DecidableEq, Repr

/-- A bus operation as recorded in the trace: the frame written, or the
length requested by a read. -/
inductive BusOp where
  | write (frame : List Nat)
  | read (len : Nat)
deriving DecidableEq, Repr

/-- The driver's global mutable state in scd30_lib.cpp: the cached sample
(`_co2`, `_temperature`, `_humidity`, kept as raw 32-bit patterns), the
shadow configuration (`_asc`, `_interval`) and the three staleness flags. -/
structure DriverState where
  co2 : Nat
  temperature : Nat
  humidity : Nat
  asc : Bool
  interval : Nat
  co2HasBeenReported : Bool
  humidityHasBeenReported : Bool
  temperatureHasBeenReported : Bool
deriving DecidableEq, Repr

/-- Driver state plus environment: the remaining transport oracle and the
trace of bus operations issued so far (newest first). -/
structure World where
  drv : DriverState
  bus : List BusEvent
  trace : List BusOp
deriving DecidableEq, Repr

/-- Command opcodes from SCD30.h. -/
def COMMAND_CONTINUOUS_MEASUREMENT : Nat := 0x0010
def COMMAND_SET_MEASUREMENT_INTERVAL : Nat := 0x4600
def COMMAND_GET_DATA_READY : Nat := 0x0202
def COMMAND_READ_MEASUREMENT : Nat := 0x0300
def COMMAND_AUTOMATIC_SELF_CALIBRATION : Nat := 0x5306
def COMMAND_SET_FORCED_RECALIBRATION_FACTOR : Nat := 0x5204
def COMMAND_SET_TEMPERATURE_OFFSET : Nat := 0x5403
def COMMAND_SET_ALTITUDE_COMPENSATION : Nat := 0x5102
def CMD_READ_SERIALNBR : Nat := 0xD033
def CMD_START_SINGLE_MEAS : Nat := 0x0006
def CMD_STOP_MEAS : Nat := 0x0104

/-- The 8 inner rounds of `SCD30::computeCRC8`: on each round, if the high
bit of the 8-bit accumulator is set, shift left and XOR with 0x31, else
shift left (both truncated to 8 bits by the `uint8_t` cast). -/
def crcByteRounds : Nat → Nat → Nat
  | 0, crc => crc
  | Nat.succ i, crc =>
      crcByteRounds i (if crc &&& 0x80 ≠ 0 then ((crc * 2) ^^^ 0x31) % 256 else crc * 2 % 256)

/-- Source `SCD30::computeCRC8`: accumulator seeded with 0xFF; each input byte
(`uint8_t`, hence the `% 256`) is XORed in, followed by the 8 rounds. -/
def computeCRC8 (data : List Nat) : Nat :=
  data.foldl (fun crc b => crcByteRounds 8 (crc ^^^ (b % 256))) 0xFF

/-- Source `SCD30::checkCrc`: recompute the CRC over the data and compare with the
received CRC byte. -/
def checkCrc (data : List Nat) (crc_rec : Nat) : Bool :=
  computeCRC8 data == crc_rec % 256

/-- Truncate/pad the device's wire bytes to exactly `len` byte values, the
shape `i2c_read` delivers into the caller's buffer on success. -/
def takeBytes (len : Nat) (l : List Nat) : List Nat :=
  ((l.map (fun b => b % 256)) ++ List.replicate len 0).take len

/-- One `TWI.i2c_write`: consumes the next oracle event (no event left is
modelled as an unknown transport error) and records the frame written. -/
def i2c_write (frame : List Nat) (w : World) : Wstatus × World :=
  match w.bus with
  | [] => (Wstatus.I2C_UNKNOWN, { w with trace := BusOp.write frame :: w.trace })
  | e :: rest => (e.status, { w with bus := rest, trace := BusOp.write frame :: w.trace })

/-- One `TWI.i2c_read`: consumes the next oracle event, records the read and
returns the device bytes (padded to the requested length). -/
def i2c_read (len : Nat) (w : World) : Wstatus × List Nat × World :=
  match w.bus with
  | [] => (Wstatus.I2C_UNKNOWN, takeBytes len [],
           { w with trace := BusOp.read len :: w.trace })
  | e :: rest => (e.status, takeBytes len e.bytes,
                  { w with bus := rest, trace := BusOp.read len :: w.trace })

/-- Frame built by `SCD30::sendCommand(command, arguments, len)`: two
big-endian opcode bytes; if `len > 2`, two big-endian argument bytes plus a
CRC over the argument bytes only. -/
def sendFrame (command arguments len : Nat) : List Nat :=
  if len > 2 then
    [command / 256 % 256, command % 256, arguments / 256 % 256, arguments % 256,
     computeCRC8 [arguments / 256 % 256, arguments % 256]]
  else
    [command / 256 % 256, command % 256]

/-- The write retry loop of `SCD30::sendCommand`: `retry` holds the current
value of the C `retry` counter (initially 3).  A failed attempt is retried
while `retry-- > 0`; once the budget is exhausted the failure status is
classified and the call returns false — every non-OK status, NACK included,
takes the same path. -/
def sendAttempts (frame : List Nat) : Nat → World → Bool × World
  | 0, w =>
      let r := i2c_write frame w
      if r.1 = Wstatus.I2C_OK then (true, r.2) else (false, r.2)
  | Nat.succ m, w =>
      let r := i2c_write frame w
      if r.1 = Wstatus.I2C_OK then (true, r.2) else sendAttempts frame m r.2

/-- Source `SCD30::sendCommand(command, arguments, len)`. -/
def sendCommandFull (command arguments len : Nat) (w : World) : Bool × World :=
  sendAttempts (sendFrame command arguments len) 3 w

/-- Source `SCD30::sendCommand(command, arguments)` (argument + CRC frame). -/
def sendCommandArg (command arguments : Nat) : World → Bool × World :=
  sendCommandFull command arguments 5

/-- Source `SCD30::sendCommand(command)` (opcode-only frame). -/
def sendCommand (command : Nat) : World → Bool × World :=
  sendCommandFull command 0 2

/-- The read retry loop of `SCD30::readbytes`, same bounded-retry policy as
the write path. -/
def readAttempts (len : Nat) : Nat → World → Bool × List Nat × World
  | 0, w =>
      let r := i2c_read len w
      if r.1 = Wstatus.I2C_OK then (true, r.2.1, r.2.2) else (false, r.2.1, r.2.2)
  | Nat.succ m, w =>
      let r := i2c_read len w
      if r.1 = Wstatus.I2C_OK then (true, r.2.1, r.2.2) else readAttempts len m r.2.2

/-- Source `SCD30::readbytes(buff, len)`. -/
def readbytes (len : Nat) (w : World) : Bool × List Nat × World :=
  readAttempts len 3 w

/-- Source `SCD30::dataAvailable`: issue the data-ready query, read 3 bytes, check
the CRC over the first two, and report whether the second byte equals 1. -/
def dataAvailable (w : World) : Bool × World :=
  let s := sendCommand COMMAND_GET_DATA_READY w
  if s.1 = false then (false, s.2) else
  let r := readbytes 3 s.2
  if r.1 = false then (false, r.2.2) else
  if checkCrc (r.2.1.take 2) (r.2.1.getD 2 0) = false then (false, r.2.2) else
  (r.2.1.getD 1 0 == 1, r.2.2)

/-- Big-endian assembly of a 4-byte field (`tempCO2 <<= 8; tempCO2 |= b`). -/
def word4 (a b c d : Nat) : Nat :=
  ((a * 256 + b) * 256 + c) * 256 + d

/-- The parse loop of `SCD30::readMeasurement` over the 18-byte response:
the CRC bytes at positions 2, 5, 8, 11, 14, 17 are checked in that order,
each over the two preceding data bytes; any mismatch rejects the whole
response.  On success the three raw 32-bit patterns are assembled from data
bytes (0,1,3,4), (6,7,9,10) and (12,13,15,16). -/
def parseMeasurement (buff : List Nat) : Option (Nat × Nat × Nat) :=
  let b := fun i => buff.getD i 0
  if checkCrc [b 0, b 1] (b 2) = false then none
  else if checkCrc [b 3, b 4] (b 5) = false then none
  else if checkCrc [b 6, b 7] (b 8) = false then none
  else if checkCrc [b 9, b 10] (b 11) = false then none
  else if checkCrc [b 12, b 13] (b 14) = false then none
  else if checkCrc [b 15, b 16] (b 17) = false then none
  else some (word4 (b 0) (b 1) (b 3) (b 4), word4 (b 6) (b 7) (b 9) (b 10),
             word4 (b 12) (b 13) (b 15) (b 16))

/-- Source `SCD30::readMeasurement`: require data available, issue the read
command, read 18 bytes, parse; only a fully verified response overwrites
the three cached patterns and clears the three staleness flags. -/
def readMeasurement (w : World) : Bool × World :=
  let a := dataAvailable w
  if a.1 = false then (false, a.2) else
  let s := sendCommand COMMAND_READ_MEASUREMENT a.2
  if s.1 = false then (false, s.2) else
  let r := readbytes 18 s.2
  if r.1 = false then (false, r.2.2) else
  match parseMeasurement r.2.1 with
  | none => (false, r.2.2)
  | some ctH =>
      (true, { r.2.2 with drv := { r.2.2.drv with
          co2 := ctH.1, temperature := ctH.2.1, humidity := ctH.2.2,
          co2HasBeenReported := false,
          humidityHasBeenReported := false,
          temperatureHasBeenReported := false } })

/-- Source `SCD30::getCO2`: trigger a new read if the cached CO2 was already
reported, then mark it reported and return the cached value (the C++
float-to-uint16 truncation of the returned number is not modelled; the
claims concern caching, not the numeric view). -/
def getCO2 (w : World) : Nat × World :=
  let w1 := if w.drv.co2HasBeenReported = true then (readMeasurement w).2 else w
  (w1.drv.co2, { w1 with drv := { w1.drv with co2HasBeenReported := true } })

/-- Source `SCD30::setAutoSelfCalibration`: store the shadow flag, then send the
ASC command with argument 1 or 0. -/
def setAutoSelfCalibration (enable : Bool) (w : World) : Bool × World :=
  let w1 := { w with drv := { w.drv with asc := enable } }
  if enable then sendCommandArg COMMAND_AUTOMATIC_SELF_CALIBRATION 1 w1
  else sendCommandArg COMMAND_AUTOMATIC_SELF_CALIBRATION 0 w1

/-- Source `SCD30::setMeasurementInterval`: validate [2,1800], store the shadow
interval, then send the command. -/
def setMeasurementInterval (interval : Nat) (w : World) : Bool × World :=
  if interval < 2 ∨ interval > 1800 then (false, w)
  else
    let w1 := { w with drv := { w.drv with interval := interval } }
    sendCommandArg COMMAND_SET_MEASUREMENT_INTERVAL interval w1

/-- Source `SCD30::setForceRecalibration`: validate [400,2000] and send the FRC
command; the shadow configuration is not touched. -/
def setForceRecalibration (val : Nat) (w : World) : Bool × World :=
  if val < 400 ∨ val > 2000 then (false, w)
  else sendCommandArg COMMAND_SET_FORCED_RECALIBRATION_FACTOR val w

/-- Source `SCD30::setAltitudeCompensation`: the C source compares the `uint16_t`
argument with `-1520`; after integer promotion that comparison is always
false, so only `altitude > 3040` rejects.  On pass, send the command. -/
def setAltitudeCompensation (altitude : Nat) (w : World) : Bool × World :=
  if altitude > 3040 then (false, w)
  else sendCommandArg COMMAND_SET_ALTITUDE_COMPENSATION altitude w

/-- Source `SCD30::beginMeasuring(pressureOffset)`: an out-of-range pressure is
silently replaced by 0 (compensation off) and the start-continuous command
is sent with that argument. -/
def beginMeasuring (pressureOffset : Nat) (w : World) : Bool × World :=
  let p := if pressureOffset < 700 ∨ pressureOffset > 1200 then 0 else pressureOffset
  sendCommandArg COMMAND_CONTINUOUS_MEASUREMENT p w

/-- Source `SCD30::setAmbientPressure`: forwards to `beginMeasuring`. -/
def setAmbientPressure (pressure_mbar : Nat) (w : World) : Bool × World :=
  beginMeasuring pressure_mbar w

/-- Source `SCD30::StopMeasurement`. -/
def StopMeasurement (w : World) : Bool × World :=
  sendCommand CMD_STOP_MEAS w

/-- Source `SCD30::begin_scd30`: with a positive shadow interval, start continuous
measurement (the overload with offset 0); if that succeeded, set the
interval, aborting on its failure; then — also when starting continuous
measurement failed — set auto-self-calibration and return its result.
With interval 0, only stop-measurement is issued. -/
def begin_scd30 (w : World) : Bool × World :=
  if w.drv.interval > 0 then
    let b := beginMeasuring 0 w
    if b.1 = true then
      let m := setMeasurementInterval b.2.drv.interval b.2
      if m.1 = false then (false, m.2)
      else setAutoSelfCalibration m.2.drv.asc m.2
    else
      setAutoSelfCalibration b.2.drv.asc b.2
  else
    StopMeasurement w

/-- Source `SCD30::begin(asc, interval)`: store the shadow values, then initialize
the transport (an external collaborator, modelled as succeeding) and run
`begin_scd30`. -/
def begin (asc : Bool) (interval : Nat) (w : World) : Bool × World :=
  begin_scd30 { w with drv := { w.drv with asc := asc, interval := interval } }

/-- The data-ready poll loop of `SCD30::StartSingleMeasurement`: `r` holds
the current value of the C `retry` counter (initially 10); a false
dataAvailable sleeps and gives up when `retry-- == 0`. -/
def pollLoop : Nat → World → Bool × World
  | 0, w =>
      let a := dataAvailable w
      if a.1 = true then (true, a.2) else (false, a.2)
  | Nat.succ m, w =>
      let a := dataAvailable w
      if a.1 = true then (true, a.2) else pollLoop m a.2

/-- Source `SCD30::StartSingleMeasurement`: save {asc, interval}, force
{false, 2}, run `begin_scd30`; on its success poll for data and read one
measurement; on every path issue stop-measurement (result discarded) and
restore the saved {asc, interval} into the shadow configuration. -/
def StartSingleMeasurement (w : World) : Bool × World :=
  let sa := w.drv.asc
  let si := w.drv.interval
  let b := begin_scd30 { w with drv := { w.drv with asc := false, interval := 2 } }
  let m : Bool × World :=
    if b.1 = false then (false, b.2)
    else
      let p := pollLoop 10 b.2
      if p.1 = false then (false, p.2)
      else readMeasurement p.2
  let s := StopMeasurement m.2
  (m.1, { s.2 with drv := { s.2.drv with asc := sa, interval := si } })

/-- Shadow of the command-line option block of scd30.cpp relevant here. -/
structure CmdOpts where
  asc : Bool
  frc : Int
deriving DecidableEq, Repr

/-- The f-option case of `parse_cmdline` in scd30.cpp: store the FRC value,
set the requested asc to false, then range-check (an out-of-range value
exits the program, modelled as `none`). -/
def parse_frc_option (scd : CmdOpts) (v : Nat) : Option CmdOpts :=
  let scd2 : CmdOpts := { scd with frc := Int.ofNat v, asc := false }
  if v < 400 ∨ v > 2000 then none else some scd2

/-- Step of the eight checksum rounds as section 4.1 of the specification
words it: on an 8-bit accumulator, shift left when the high bit is clear,
else shift left and XOR with the polynomial 0x31.  Kept separate from
`crcByteRounds` so that the refinement half of C1 compares a
specification-side formulation with the source translation. -/
def crcSpecRound (c : Nat) : Nat :=
  if c &&& 0x80 = 0 then (c <<< 1) % 256 else ((c <<< 1) ^^^ 0x31) % 256

/-- Per-byte step as the specification words it: XOR the byte into the
accumulator, then perform the eight rounds. -/
def crcSpecByte (acc b : Nat) : Nat :=
  crcSpecRound^[8] (acc ^^^ (b % 256))

/-- Specification-side checksum: accumulator seeded with 0xFF, one
`crcSpecByte` step per input byte, no output reflection, no final XOR. -/
def crcSpecList : Nat → List Nat → Nat
  | acc, [] => acc
  | acc, b :: rest => crcSpecList (crcSpecByte acc b) rest

/-- The whole specification-side checksum of a byte sequence. -/
def crcSpec (d : List Nat) : Nat := crcSpecList 0xFF d

theorem crcSpecRound_eq (c : Nat) :
    (if c &&& 0x80 ≠ 0 then ((c * 2) ^^^ 0x31) % 256 else c * 2 % 256) = crcSpecRound c := by
  by_cases h : c &&& 0x80 = 0 <;>
    simp [crcSpecRound, h, Nat.shiftLeft_eq]

theorem crcByteRounds_eq (n : Nat) : ∀ c, crcByteRounds n c = crcSpecRound^[n] c := by
  induction n with
  | zero => intro c; rfl
  | succ m ih =>
      intro c
      rw [crcByteRounds, ih, crcSpecRound_eq, Function.iterate_succ_apply]

theorem computeCRC8_foldl_eq (d : List Nat) :
    ∀ acc, d.foldl (fun crc b => crcByteRounds 8 (crc ^^^ (b % 256))) acc = crcSpecList acc d := by
  induction d with
  | nil => intro acc; rfl
  | cons b rest ih =>
      intro acc
      rw [List.foldl_cons, ih]
      have hb : crcByteRounds 8 (acc ^^^ (b % 256)) = crcSpecByte acc b := by
        rw [crcByteRounds_eq]; rfl
      rw [hb, crcSpecList]

theorem crcByteRounds_lt (n : Nat) : ∀ c, crcByteRounds (n + 1) c < 256 := by
  induction n with
  | zero =>
      intro c
      rw [crcByteRounds, crcByteRounds]
      split <;> exact Nat.mod_lt _ (by norm_num)
  | succ m ih =>
      intro c
      rw [crcByteRounds]
      exact ih _

theorem crc_foldl_lt (d : List Nat) :
    ∀ acc, acc < 256 →
      d.foldl (fun crc b => crcByteRounds 8 (crc ^^^ (b % 256))) acc < 256 := by
  induction d with
  | nil => intro acc h; simpa using h
  | cons b rest ih =>
      intro acc _
      rw [List.foldl_cons]
      exact ih _ (crcByteRounds_lt 7 _)

theorem computeCRC8_lt (d : List Nat) : computeCRC8 d < 256 :=
  crc_foldl_lt d 0xFF (by norm_num)

/-- C1: the checksum of the source is deterministic (equal byte sequences
give equal outputs), `checkCrc` accepts the checksum `computeCRC8` itself
computed over any byte sequence, and `computeCRC8` coincides with the
algorithm as the specification words it (`crcSpec`): accumulator seeded
with 0xFF, each byte XORed in, eight rounds of shift-left-and-XOR-0x31
when the high bit is set else shift-left, no output reflection, no final
XOR. -/
theorem computeCRC8_deterministic_verify_algo (d d' : List Nat) (h : d = d') :
    computeCRC8 d = computeCRC8 d' ∧
    checkCrc d (computeCRC8 d) = true ∧
    computeCRC8 d = crcSpec d := by
  refine ⟨by rw [h], ?_, ?_⟩
  · unfold checkCrc
    rw [Nat.mod_eq_of_lt (computeCRC8_lt d)]
    simp
  · unfold computeCRC8 crcSpec
    exact computeCRC8_foldl_eq d 0xFF

/-- Witness for C1 at the concrete byte sequence [0xBE, 0xEF]. -/
theorem computeCRC8_deterministic_verify_algo_witness :
    computeCRC8 [0xBE, 0xEF] = computeCRC8 [0xBE, 0xEF] ∧
    checkCrc [0xBE, 0xEF] (computeCRC8 [0xBE, 0xEF]) = true ∧
    computeCRC8 [0xBE, 0xEF] = crcSpec [0xBE, 0xEF] :=
  computeCRC8_deterministic_verify_algo [0xBE, 0xEF] [0xBE, 0xEF] rfl

theorem i2c_write_drv (frame : List Nat) (w : World) :
    (i2c_write frame w).2.drv = w.drv := by
  obtain ⟨d, bus, tr⟩ := w
  cases bus <;> rfl

theorem i2c_write_trace (frame : List Nat) (w : World) :
    (i2c_write frame w).2.trace = BusOp.write frame :: w.trace := by
  obtain ⟨d, bus, tr⟩ := w
  cases bus <;> rfl

theorem i2c_read_drv (len : Nat) (w : World) :
    (i2c_read len w).2.2.drv = w.drv := by
  obtain ⟨d, bus, tr⟩ := w
  cases bus <;> rfl

theorem i2c_read_trace (len : Nat) (w : World) :
    (i2c_read len w).2.2.trace = BusOp.read len :: w.trace := by
  obtain ⟨d, bus, tr⟩ := w
  cases bus <;> rfl

theorem sendAttempts_drv (frame : List Nat) :
    ∀ (n : Nat) (w : World), (sendAttempts frame n w).2.drv = w.drv := by
  intro n
  induction n with
  | zero =>
      intro w
      simp only [sendAttempts]
      split <;> exact i2c_write_drv frame w
  | succ m ih =>
      intro w
      simp only [sendAttempts]
      split
      · exact i2c_write_drv frame w
      · rw [ih]; exact i2c_write_drv frame w

theorem sendAttempts_trace_head (frame : List Nat) :
    ∀ (n : Nat) (w : World),
      (sendAttempts frame n w).2.trace.head? = some (BusOp.write frame) := by
  intro n
  induction n with
  | zero =>
      intro w
      simp only [sendAttempts]
      split <;> simp [i2c_write_trace]
  | succ m ih =>
      intro w
      simp only [sendAttempts]
      split
      · simp [i2c_write_trace]
      · exact ih _

theorem sendAttempts_trace_le (frame : List Nat) :
    ∀ (n : Nat) (w : World),
      w.trace.length + 1 ≤ (sendAttempts frame n w).2.trace.length := by
  intro n
  induction n with
  | zero =>
      intro w
      simp only [sendAttempts]
      split <;> simp [i2c_write_trace]
  | succ m ih =>
      intro w
      simp only [sendAttempts]
      split
      · simp [i2c_write_trace]
      · have h1 := ih (i2c_write frame w).2
        have h2 := i2c_write_trace frame w
        rw [h2] at h1
        simp only [List.length_cons] at h1
        omega

theorem readAttempts_drv (len : Nat) :
    ∀ (n : Nat) (w : World), (readAttempts len n w).2.2.drv = w.drv := by
  intro n
  induction n with
  | zero =>
      intro w
      simp only [readAttempts]
      split <;> exact i2c_read_drv len w
  | succ m ih =>
      intro w
      simp only [readAttempts]
      split
      · exact i2c_read_drv len w
      · rw [ih]; exact i2c_read_drv len w

theorem readAttempts_trace_le (len : Nat) :
    ∀ (n : Nat) (w : World),
      w.trace.length + 1 ≤ (readAttempts len n w).2.2.trace.length := by
  intro n
  induction n with
  | zero =>
      intro w
      simp only [readAttempts]
      split <;> simp [i2c_read_trace]
  | succ m ih =>
      intro w
      simp only [readAttempts]
      split
      · simp [i2c_read_trace]
      · have h1 := ih (i2c_read len w).2.2
        have h2 := i2c_read_trace len w
        rw [h2] at h1
        simp only [List.length_cons] at h1
        omega

theorem sendCommand_drv (c : Nat) (w : World) :
    (sendCommand c w).2.drv = w.drv :=
  sendAttempts_drv _ 3 w

theorem sendCommandArg_drv (c a : Nat) (w : World) :
    (sendCommandArg c a w).2.drv = w.drv :=
  sendAttempts_drv _ 3 w

theorem readbytes_drv (len : Nat) (w : World) :
    (readbytes len w).2.2.drv = w.drv :=
  readAttempts_drv len 3 w

theorem sendCommand_trace_le (c : Nat) (w : World) :
    w.trace.length + 1 ≤ (sendCommand c w).2.trace.length :=
  sendAttempts_trace_le _ 3 w

theorem readbytes_trace_le (len : Nat) (w : World) :
    w.trace.length + 1 ≤ (readbytes len w).2.2.trace.length :=
  readAttempts_trace_le len 3 w

theorem dataAvailable_drv (w : World) : (dataAvailable w).2.drv = w.drv := by
  simp only [dataAvailable]
  split
  · exact sendCommand_drv _ w
  · split
    · rw [readbytes_drv]; exact sendCommand_drv _ w
    · split
      · rw [readbytes_drv]; exact sendCommand_drv _ w
      · rw [readbytes_drv]; exact sendCommand_drv _ w

theorem dataAvailable_trace_le (w : World) :
    w.trace.length + 1 ≤ (dataAvailable w).2.trace.length := by
  have h1 := sendCommand_trace_le COMMAND_GET_DATA_READY w
  have h2 := readbytes_trace_le 3 (sendCommand COMMAND_GET_DATA_READY w).2
  simp only [dataAvailable]
  split
  · exact h1
  · split
    · dsimp only; omega
    · split
      · dsimp only; omega
      · dsimp only; omega

theorem readMeasurement_cases (w : World) :
    ((readMeasurement w).1 = false ∧ (readMeasurement w).2.drv = w.drv) ∨
    ((readMeasurement w).1 = true ∧ ∃ c t h, (readMeasurement w).2.drv =
        { w.drv with
            co2 := c, temperature := t, humidity := h,
            co2HasBeenReported := false, humidityHasBeenReported := false,
            temperatureHasBeenReported := false }) := by
  have hchain : (readbytes 18 (sendCommand COMMAND_READ_MEASUREMENT
      (dataAvailable w).2).2).2.2.drv = w.drv := by
    rw [readbytes_drv, sendCommand_drv, dataAvailable_drv]
  simp only [readMeasurement]
  split
  · left
    exact ⟨rfl, dataAvailable_drv w⟩
  · split
    · left
      refine ⟨rfl, ?_⟩
      rw [sendCommand_drv, dataAvailable_drv]
    · split
      · left
        exact ⟨rfl, hchain⟩
      · split
        · left
          exact ⟨rfl, hchain⟩
        · right
          rename_i ctH heq
          refine ⟨rfl, ctH.1, ctH.2.1, ctH.2.2, ?_⟩
          dsimp only
          rw [hchain]

theorem readMeasurement_trace_le (w : World) :
    w.trace.length + 1 ≤ (readMeasurement w).2.trace.length := by
  have h1 := dataAvailable_trace_le w
  have h2 := sendCommand_trace_le COMMAND_READ_MEASUREMENT (dataAvailable w).2
  have h3 := readbytes_trace_le 18 (sendCommand COMMAND_READ_MEASUREMENT (dataAvailable w).2).2
  simp only [readMeasurement]
  split
  · dsimp only; omega
  · split
    · dsimp only; omega
    · split
      · dsimp only; omega
      · split
        · dsimp only; omega
        · dsimp only; omega

/-- Initial driver state used by the concrete runs: asc on, interval 2,
all three staleness flags set (the power-on values of the globals). -/
def drvInit : DriverState :=
  { co2 := 0, temperature := 0, humidity := 0, asc := true, interval := 2,
    co2HasBeenReported := true, humidityHasBeenReported := true,
    temperatureHasBeenReported := true }

/-- A transport event reporting success. -/
def okEvent : BusEvent := { status := Wstatus.I2C_OK }

/-- A transport event reporting a NACK from the device. -/
def nackEvent : BusEvent := { status := Wstatus.I2C_SDA_NACK }

/-- World whose transport NACKs the next four operations. -/
def wAllFail : World :=
  { drv := drvInit, bus := [nackEvent, nackEvent, nackEvent, nackEvent], trace := [] }

/-- World whose transport NACKs once and then succeeds. -/
def wNackOk : World := { drv := drvInit, bus := [nackEvent, okEvent], trace := [] }

/-- World with an exhausted transport oracle: every operation fails. -/
def wEmptyBus : World := { drv := drvInit, bus := [], trace := [] }

/-- World whose transport accepts exactly one operation. -/
def wOneOk : World := { drv := drvInit, bus := [okEvent], trace := [] }

/-- Data-ready response: status word 0x0001 plus its CRC. -/
def readyEvent : BusEvent :=
  { status := Wstatus.I2C_OK, bytes := [0, 1, computeCRC8 [0, 1]] }

/-- A fully checksummed 18-byte measurement response. -/
def measEvent : BusEvent :=
  { status := Wstatus.I2C_OK,
    bytes := [1, 2, computeCRC8 [1, 2], 3, 4, computeCRC8 [3, 4],
              5, 6, computeCRC8 [5, 6], 7, 8, computeCRC8 [7, 8],
              9, 10, computeCRC8 [9, 10], 11, 12, computeCRC8 [11, 12]] }

/-- World on which a full readMeasurement succeeds: data-ready query and
response, then read command and the 18-byte response. -/
def wMeasOk : World :=
  { drv := drvInit, bus := [okEvent, readyEvent, okEvent, measEvent], trace := [] }

/-- C4: readMeasurement updates the cached sample atomically.  On any
failing call (data not available, send failure, read failure, or a
checksum mismatch anywhere in the 18-byte response) the whole driver state
— the three cached quantities and the three staleness flags — is
unchanged; on any successful call the three cached quantities are
overwritten together and the three flags are cleared together, with
nothing else of the driver state touched. -/
theorem readMeasurement_atomic (w u : World)
    (hw : (readMeasurement w).1 = false)
    (hu : (readMeasurement u).1 = true) :
    (readMeasurement w).2.drv = w.drv ∧
    ∃ c t h, (readMeasurement u).2.drv =
      { u.drv with
          co2 := c, temperature := t, humidity := h,
          co2HasBeenReported := false, humidityHasBeenReported := false,
          temperatureHasBeenReported := false } := by
  constructor
  · rcases readMeasurement_cases w with h | h
    · exact h.2
    · rw [hw] at h; cases h.1
  · rcases readMeasurement_cases u with h | h
    · rw [hu] at h; cases h.1
    · exact h.2

/-- Witness for C4: a failing run (exhausted transport) leaves the driver
state unchanged, and a successful run on a fully checksummed response
rewrites the sample wholesale. -/
theorem readMeasurement_atomic_witness :
    (readMeasurement wEmptyBus).2.drv = wEmptyBus.drv ∧
    ∃ c t h, (readMeasurement wMeasOk).2.drv =
      { wMeasOk.drv with
          co2 := c, temperature := t, humidity := h,
          co2HasBeenReported := false, humidityHasBeenReported := false,
          temperatureHasBeenReported := false } :=
  readMeasurement_atomic wEmptyBus wMeasOk (by decide) (by decide)

/-- World for the begin run of C2: the transport NACKs the four write
attempts of the start-continuous-measurement step, then accepts the next
write. -/
def wBeginStartFail : World :=
  { drv := drvInit,
    bus := [nackEvent, nackEvent, nackEvent, nackEvent, okEvent], trace := [] }

/-- C2, evaluated at the failing input: with asc requested true and
interval 5, when the start-continuous-measurement transaction fails
terminally (four NACKed write attempts), `begin` does not abort — it skips
set-interval, still issues the set-auto-self-calibration transaction (the
newest trace entry) and returns true, where the claim requires that no
subsequent transaction be issued and that begin report failure. -/
theorem begin_start_failure_not_aborted :
    (begin true 5 wBeginStartFail).1 = true ∧
    (begin true 5 wBeginStartFail).2.trace =
      [BusOp.write (sendFrame COMMAND_AUTOMATIC_SELF_CALIBRATION 1 5),
       BusOp.write (sendFrame COMMAND_CONTINUOUS_MEASUREMENT 0 5),
       BusOp.write (sendFrame COMMAND_CONTINUOUS_MEASUREMENT 0 5),
       BusOp.write (sendFrame COMMAND_CONTINUOUS_MEASUREMENT 0 5),
       BusOp.write (sendFrame COMMAND_CONTINUOUS_MEASUREMENT 0 5)] := by
  decide

theorem sendAttempts_all_fail (frame : List Nat) :
    ∀ (n : Nat) (w : World),
      (∀ e ∈ w.bus.take (n + 1), e.status ≠ Wstatus.I2C_OK) →
      (sendAttempts frame n w).1 = false ∧
      (sendAttempts frame n w).2.trace.length = w.trace.length + (n + 1) := by
  intro n
  induction n with
  | zero =>
      intro w h
      obtain ⟨d, bus, tr⟩ := w
      cases bus with
      | nil => simp [sendAttempts, i2c_write]
      | cons e rest =>
          have he : e.status ≠ Wstatus.I2C_OK := h e (by simp)
          simp [sendAttempts, i2c_write, he]
  | succ m ih =>
      intro w h
      obtain ⟨d, bus, tr⟩ := w
      cases bus with
      | nil =>
          have hstep : sendAttempts frame (m + 1) (World.mk d [] tr)
              = sendAttempts frame m (World.mk d [] (BusOp.write frame :: tr)) := by
            simp only [sendAttempts]
            exact if_neg (by simp [i2c_write])
          have h2 := ih { drv := d, bus := [], trace := BusOp.write frame :: tr } (by simp)
          rw [hstep]
          refine ⟨h2.1, ?_⟩
          rw [h2.2]
          simp only [List.length_cons]
          omega
      | cons e rest =>
          have he : e.status ≠ Wstatus.I2C_OK := h e (by simp [List.take_succ_cons])
          have hrest : ∀ e2 ∈ rest.take (m + 1), e2.status ≠ Wstatus.I2C_OK := by
            intro e2 he2
            exact h e2 (by rw [List.take_succ_cons]; exact List.mem_cons_of_mem _ he2)
          have hstep : sendAttempts frame (m + 1) (World.mk d (e :: rest) tr)
              = sendAttempts frame m (World.mk d rest (BusOp.write frame :: tr)) := by
            simp only [sendAttempts]
            exact if_neg he
          have h2 := ih { drv := d, bus := rest, trace := BusOp.write frame :: tr } hrest
          rw [hstep]
          refine ⟨h2.1, ?_⟩
          rw [h2.2]
          simp only [List.length_cons]
          omega

theorem readAttempts_all_fail (len : Nat) :
    ∀ (n : Nat) (w : World),
      (∀ e ∈ w.bus.take (n + 1), e.status ≠ Wstatus.I2C_OK) →
      (readAttempts len n w).1 = false ∧
      (readAttempts len n w).2.2.trace.length = w.trace.length + (n + 1) := by
  intro n
  induction n with
  | zero =>
      intro w h
      obtain ⟨d, bus, tr⟩ := w
      cases bus with
      | nil => simp [readAttempts, i2c_read]
      | cons e rest =>
          have he : e.status ≠ Wstatus.I2C_OK := h e (by simp)
          simp [readAttempts, i2c_read, he]
  | succ m ih =>
      intro w h
      obtain ⟨d, bus, tr⟩ := w
      cases bus with
      | nil =>
          have hstep : readAttempts len (m + 1) (World.mk d [] tr)
              = readAttempts len m (World.mk d [] (BusOp.read len :: tr)) := by
            simp only [readAttempts]
            exact if_neg (by simp [i2c_read])
          have h2 := ih { drv := d, bus := [], trace := BusOp.read len :: tr } (by simp)
          rw [hstep]
          refine ⟨h2.1, ?_⟩
          rw [h2.2]
          simp only [List.length_cons]
          omega
      | cons e rest =>
          have he : e.status ≠ Wstatus.I2C_OK := h e (by simp [List.take_succ_cons])
          have hrest : ∀ e2 ∈ rest.take (m + 1), e2.status ≠ Wstatus.I2C_OK := by
            intro e2 he2
            exact h e2 (by rw [List.take_succ_cons]; exact List.mem_cons_of_mem _ he2)
          have hstep : readAttempts len (m + 1) (World.mk d (e :: rest) tr)
              = readAttempts len m (World.mk d rest (BusOp.read len :: tr)) := by
            simp only [readAttempts]
            exact if_neg he
          have h2 := ih { drv := d, bus := rest, trace := BusOp.read len :: tr } hrest
          rw [hstep]
          refine ⟨h2.1, ?_⟩
          rw [h2.2]
          simp only [List.length_cons]
          omega

/-- C3 counterexample: the transport NACKs the first write attempt and
accepts the second; the send transaction is retried after the NACK and
reports success with two write attempts on the trace — a NACKed response
is not terminal for the transaction, where the claim says it is never
retried. -/
theorem sendCommand_nack_retried :
    (sendCommandFull CMD_STOP_MEAS 0 2 wNackOk).1 = true ∧
    (sendCommandFull CMD_STOP_MEAS 0 2 wNackOk).2.trace.length = 2 := by
  decide

/-- C3 (amended): a send or receive transaction retries every transport
failure — a NACK from the device like any other — up to 3 additional
attempts (4 attempts in total); only once the budget is exhausted is the
failure classified and reported, and a success inside the budget (here: a
NACK followed by an accepted attempt) makes the transaction succeed. -/
theorem transport_retry_policy (command arguments len rlen : Nat) (w u v : World) :
    ((∀ e ∈ w.bus.take 4, e.status ≠ Wstatus.I2C_OK) →
       (sendCommandFull command arguments len w).1 = false ∧
       (sendCommandFull command arguments len w).2.trace.length = w.trace.length + 4) ∧
    (∀ e1 e2 rest, u.bus = e1 :: e2 :: rest →
       e1.status ≠ Wstatus.I2C_OK → e2.status = Wstatus.I2C_OK →
       (sendCommandFull command arguments len u).1 = true ∧
       (sendCommandFull command arguments len u).2.trace.length = u.trace.length + 2) ∧
    ((∀ e ∈ v.bus.take 4, e.status ≠ Wstatus.I2C_OK) →
       (readbytes rlen v).1 = false ∧
       (readbytes rlen v).2.2.trace.length = v.trace.length + 4) := by
  refine ⟨?_, ?_, ?_⟩
  · intro h
    exact sendAttempts_all_fail _ 3 w h
  · intro e1 e2 rest hbus h1 h2
    obtain ⟨d, bus, tr⟩ := u
    simp only at hbus
    subst hbus
    constructor
    · simp [sendCommandFull, sendAttempts, i2c_write, h1, h2]
    · simp [sendCommandFull, sendAttempts, i2c_write, h1, h2]
  · intro h
    exact readAttempts_all_fail rlen 3 v h

/-- Witness for C3: the all-fail halves at a four-NACK transport, the
retry-then-succeed half at a NACK-then-OK transport. -/
theorem transport_retry_policy_witness :
    ((sendCommandFull CMD_STOP_MEAS 0 2 wAllFail).1 = false ∧
     (sendCommandFull CMD_STOP_MEAS 0 2 wAllFail).2.trace.length = wAllFail.trace.length + 4) ∧
    ((sendCommandFull CMD_STOP_MEAS 0 2 wNackOk).1 = true ∧
     (sendCommandFull CMD_STOP_MEAS 0 2 wNackOk).2.trace.length = wNackOk.trace.length + 2) ∧
    ((readbytes 3 wAllFail).1 = false ∧
     (readbytes 3 wAllFail).2.2.trace.length = wAllFail.trace.length + 4) := by
  have h := transport_retry_policy CMD_STOP_MEAS 0 2 3 wAllFail wNackOk wAllFail
  exact ⟨h.1 (by decide), h.2.1 nackEvent okEvent [] rfl (by decide) (by decide),
         h.2.2 (by decide)⟩

/-- C5 counterexample: with the shadow asc flag true and a transport that
accepts the write, setForceRecalibration 500 (an in-range value) succeeds
and the shadow asc flag is still true afterwards — the claim says it must
have become false. -/
theorem setForceRecalibration_leaves_asc_true :
    wOneOk.drv.asc = true ∧
    (setForceRecalibration 500 wOneOk).1 = true ∧
    (setForceRecalibration 500 wOneOk).2.drv.asc = true := by
  decide

/-- C5 (amended): for any in-range value, the library setter
`setForceRecalibration` issues the FRC command and leaves the whole shadow
driver state — the asc flag in particular — unchanged; the asc disabling
paired with a forced-recalibration request lives one layer up, in the
command-line parser of the main program, which forces its requested asc
value to false whenever the f option supplies an FRC value. -/
theorem setForceRecalibration_shadow (v : Nat) (w : World) (scd : CmdOpts)
    (h1 : 400 ≤ v) (h2 : v ≤ 2000) :
    (setForceRecalibration v w).2.drv = w.drv ∧
    (setForceRecalibration v w).2.drv.asc = w.drv.asc ∧
    parse_frc_option scd v = some { scd with frc := Int.ofNat v, asc := false } := by
  have hin : ¬(v < 400 ∨ v > 2000) := by omega
  unfold setForceRecalibration parse_frc_option
  rw [if_neg hin, if_neg hin]
  exact ⟨sendCommandArg_drv _ _ _, by rw [sendCommandArg_drv], rfl⟩

/-- Witness for C5 at value 500 on a transport accepting one write. -/
theorem setForceRecalibration_shadow_witness :
    (setForceRecalibration 500 wOneOk).2.drv = wOneOk.drv ∧
    (setForceRecalibration 500 wOneOk).2.drv.asc = wOneOk.drv.asc ∧
    parse_frc_option { asc := true, frc := -1 } 500 =
      some { asc := false, frc := Int.ofNat 500 } :=
  setForceRecalibration_shadow 500 wOneOk { asc := true, frc := -1 }
    (by omega) (by omega)

/-- World whose transport accepts two consecutive operations. -/
def wTwoOk : World := { drv := drvInit, bus := [okEvent, okEvent], trace := [] }

/-- C6 counterexample: setting altitude 1000 succeeds, and the immediately
following setAmbientPressure 900 on the resulting world also succeeds —
the claim says the second call must fail; there is no stored altitude or
pressure in the driver state for it to consult (the driver state is
unchanged by both calls). -/
theorem altitude_then_pressure_both_succeed :
    (setAltitudeCompensation 1000 wTwoOk).1 = true ∧
    (setAmbientPressure 900 (setAltitudeCompensation 1000 wTwoOk).2).1 = true ∧
    (setAmbientPressure 900 (setAltitudeCompensation 1000 wTwoOk).2).2.drv
      = wTwoOk.drv := by
  decide

/-- C6 (amended): the driver applies no mutual exclusion between altitude
and pressure compensation: it stores neither quantity, `setAltitudeCompensation`
accepts any altitude up to 3040 and issues its command unconditionally of
any earlier pressure call, and `setAmbientPressure` forwards any in-range
pressure to the start-continuous-measurement command unconditionally of
any earlier altitude call; both leave the shadow driver state unchanged.
(The mutual exclusion described by the specification exists only in the
command-line parsing of the main program.) -/
theorem altitude_pressure_no_exclusion (a p : Nat) (w u : World)
    (ha : a ≤ 3040) (hp1 : 700 ≤ p) (hp2 : p ≤ 1200) :
    setAltitudeCompensation a w = sendCommandArg COMMAND_SET_ALTITUDE_COMPENSATION a w ∧
    (setAltitudeCompensation a w).2.drv = w.drv ∧
    setAmbientPressure p u = sendCommandArg COMMAND_CONTINUOUS_MEASUREMENT p u ∧
    (setAmbientPressure p u).2.drv = u.drv := by
  have h1 : ¬a > 3040 := by omega
  have h2 : ¬(p < 700 ∨ p > 1200) := by omega
  unfold setAltitudeCompensation setAmbientPressure beginMeasuring
  rw [if_neg h1, if_neg h2]
  exact ⟨rfl, sendCommandArg_drv _ _ _, rfl, sendCommandArg_drv _ _ _⟩

/-- Witness for C6 at altitude 1000 and pressure 900. -/
theorem altitude_pressure_no_exclusion_witness :
    setAltitudeCompensation 1000 wOneOk
      = sendCommandArg COMMAND_SET_ALTITUDE_COMPENSATION 1000 wOneOk ∧
    (setAltitudeCompensation 1000 wOneOk).2.drv = wOneOk.drv ∧
    setAmbientPressure 900 wOneOk
      = sendCommandArg COMMAND_CONTINUOUS_MEASUREMENT 900 wOneOk ∧
    (setAmbientPressure 900 wOneOk).2.drv = wOneOk.drv :=
  altitude_pressure_no_exclusion 1000 900 wOneOk wOneOk
    (by omega) (by omega) (by omega)

/-- C7 counterexample: on a transport that NACKs all four write attempts,
setMeasurementInterval 5 reports failure yet the shadow interval has moved
from 2 to 5, and setAutoSelfCalibration false reports failure yet the
shadow asc flag has moved from true to false — the claim says a failing
setter leaves the shadow configuration unchanged. -/
theorem setters_shadow_mutated_on_failure :
    wAllFail.drv.interval = 2 ∧
    (setMeasurementInterval 5 wAllFail).1 = false ∧
    (setMeasurementInterval 5 wAllFail).2.drv.interval = 5 ∧
    wAllFail.drv.asc = true ∧
    (setAutoSelfCalibration false wAllFail).1 = false ∧
    (setAutoSelfCalibration false wAllFail).2.drv.asc = false := by
  decide

/-- C7 (amended): the two setters write the shadow value before issuing
the transaction — for any in-range interval the shadow interval holds the
new value afterwards whether or not the transaction succeeded, and the
shadow asc flag always holds the newly requested value afterwards; only
the validation failure of setMeasurementInterval (an out-of-range value)
returns with the world — shadow configuration included — untouched. -/
theorem setter_shadow_write_through (v z : Nat) (b : Bool) (w u x : World)
    (hv1 : 2 ≤ v) (hv2 : v ≤ 1800) (hz : z < 2 ∨ z > 1800) :
    (setMeasurementInterval v w).2.drv.interval = v ∧
    (setAutoSelfCalibration b u).2.drv.asc = b ∧
    setMeasurementInterval z x = (false, x) := by
  have hin : ¬(v < 2 ∨ v > 1800) := by omega
  refine ⟨?_, ?_, ?_⟩
  · unfold setMeasurementInterval
    rw [if_neg hin, sendCommandArg_drv]
  · cases b <;> simp [setAutoSelfCalibration, sendCommandArg_drv]
  · unfold setMeasurementInterval
    rw [if_pos hz]

/-- Witness for C7 at interval 5, asc false and out-of-range interval 1. -/
theorem setter_shadow_write_through_witness :
    (setMeasurementInterval 5 wAllFail).2.drv.interval = 5 ∧
    (setAutoSelfCalibration false wAllFail).2.drv.asc = false ∧
    setMeasurementInterval 1 wAllFail = (false, wAllFail) :=
  setter_shadow_write_through 5 1 false wAllFail wAllFail wAllFail
    (by omega) (by omega) (by omega)

/-- World for the three-call getCO2 run: staleness flags set, transport
NACKing throughout, so no readMeasurement in the run can succeed. -/
def wTriple : World := { drv := drvInit, bus := List.replicate 12 nackEvent, trace := [] }

/-- State after the first getCO2 call of the run. -/
def wTripleA : World := (getCO2 wTriple).2

/-- State after the second getCO2 call of the run. -/
def wTripleB : World := (getCO2 wTripleA).2

/-- C8 counterexample: three consecutive getCO2 calls during which no
readMeasurement ever succeeds (the transport NACKs every operation, so
there is no intervening successful readMeasurement) leave twelve bus
operations on the trace — four data-ready write attempts per call — where
the claim allows at most one new bus transaction for the three calls. -/
theorem getCO2_three_calls_bus_traffic :
    (readMeasurement wTriple).1 = false ∧
    (readMeasurement wTripleA).1 = false ∧
    (readMeasurement wTripleB).1 = false ∧
    (getCO2 wTripleB).2.trace.length = 12 := by
  decide

/-- C8 (amended): getCO2 marks the CO2 value as reported after every call,
so a call finding the flag clear returns the cached value with no bus
traffic and no oracle consumption, while every call finding the flag set —
including each of three consecutive calls, since each re-sets the flag —
triggers a fresh readMeasurement attempt with at least one new bus
operation. -/
theorem getCO2_cache_policy (w u : World)
    (hw : w.drv.co2HasBeenReported = false)
    (hu : u.drv.co2HasBeenReported = true) :
    (getCO2 w).2.drv.co2HasBeenReported = true ∧
    (getCO2 w).2.trace = w.trace ∧
    (getCO2 w).2.bus = w.bus ∧
    (getCO2 w).1 = w.drv.co2 ∧
    (getCO2 u).2.drv.co2HasBeenReported = true ∧
    u.trace.length + 1 ≤ (getCO2 u).2.trace.length := by
  refine ⟨rfl, ?_, ?_, ?_, rfl, ?_⟩
  · simp [getCO2, hw]
  · simp [getCO2, hw]
  · simp [getCO2, hw]
  · simp only [getCO2, hu]
    simpa using readMeasurement_trace_le u

/-- World with the CO2 staleness flag clear. -/
def wFresh : World :=
  { drv := { drvInit with co2HasBeenReported := false }, bus := [], trace := [] }

/-- Witness for C8: a flag-clear world returns from cache without bus
traffic; a flag-set world (NACKing transport) performs a fresh attempt. -/
theorem getCO2_cache_policy_witness :
    (getCO2 wFresh).2.drv.co2HasBeenReported = true ∧
    (getCO2 wFresh).2.trace = wFresh.trace ∧
    (getCO2 wFresh).2.bus = wFresh.bus ∧
    (getCO2 wFresh).1 = wFresh.drv.co2 ∧
    (getCO2 wAllFail).2.drv.co2HasBeenReported = true ∧
    wAllFail.trace.length + 1 ≤ (getCO2 wAllFail).2.trace.length :=
  getCO2_cache_policy wFresh wAllFail (by decide) (by decide)

/-- C9: StartSingleMeasurement restores the pre-call shadow {asc, interval}
and its last bus operation is a write of the stop-measurement frame, on
every exit path — the statement quantifies over every world, hence over
runs where the internal begin fails, where the data-ready poll exhausts
its retries, and where a sample is read. -/
theorem StartSingleMeasurement_restores_and_stops (w : World) :
    (StartSingleMeasurement w).2.drv.asc = w.drv.asc ∧
    (StartSingleMeasurement w).2.drv.interval = w.drv.interval ∧
    (StartSingleMeasurement w).2.trace.head?
      = some (BusOp.write (sendFrame CMD_STOP_MEAS 0 2)) := by
  refine ⟨rfl, rfl, ?_⟩
  exact sendAttempts_trace_head (sendFrame CMD_STOP_MEAS 0 2) 3 _

/-- C10: for every pressure argument outside [700,1200],
setAmbientPressure performs no validation rejection: it behaves exactly as
the start-continuous-measurement transaction with argument 0 (pressure
compensation disabled), and on a transport that accepts the write the call
succeeds. -/
theorem setAmbientPressure_no_reject (p : Nat) (w : World)
    (h : p < 700 ∨ p > 1200) :
    setAmbientPressure p w = sendCommandFull COMMAND_CONTINUOUS_MEASUREMENT 0 5 w ∧
    (∀ e rest, w.bus = e :: rest → e.status = Wstatus.I2C_OK →
       (setAmbientPressure p w).1 = true) := by
  have heq : setAmbientPressure p w
      = sendCommandFull COMMAND_CONTINUOUS_MEASUREMENT 0 5 w := by
    unfold setAmbientPressure beginMeasuring
    rw [if_pos h]
    rfl
  refine ⟨heq, ?_⟩
  intro e rest hbus hok
  rw [heq]
  obtain ⟨d, bus, tr⟩ := w
  simp only at hbus
  subst hbus
  simp [sendCommandFull, sendAttempts, i2c_write, hok]

/-- Witness for C10 at the out-of-range pressure 1300 on a transport
accepting one write. -/
theorem setAmbientPressure_no_reject_witness :
    setAmbientPressure 1300 wOneOk
      = sendCommandFull COMMAND_CONTINUOUS_MEASUREMENT 0 5 wOneOk ∧
    (setAmbientPressure 1300 wOneOk).1 = true := by
  have h := setAmbientPressure_no_reject 1300 wOneOk (Or.inr (by omega))
  exact ⟨h.1, h.2 okEvent [] rfl rfl⟩
